import Mathlib

/-!
Verification of the rnglib pseudorandom number generation library.

The library (Rust) exposes numeric-domain and range abstractions
(`src/values.rs`), a generator-algorithm contract (`src/algorithm.rs`),
five concrete generators (`src/mersennetwister.rs`, `src/xorshift.rs`)
and a facade with derived operations (`src/rand.rs`).

This file shallowly embeds those components: machine integers are `Nat`
with explicit `% 2^w` truncation at every operation where Rust's release
(wrapping) semantics can overflow; fallible constructors return
`Except String`; the mutable generator state is passed explicitly, every
draw returning a `value × newState` pair; operations that can panic in
Rust (out-of-bounds indexing, the `usize` underflow in `shuffle`, the
unbounded rejection loop in `sample` given bounded fuel) return `Option`.
-/

set_option maxRecDepth 40000
set_option exponentiation.threshold 30000

namespace Rnglib

/-- Truncation to an unsigned 32-bit value (Rust release wrap semantics). -/
def u32 (n : Nat) : Nat := n % 2 ^ 32

/-- Truncation to an unsigned 64-bit value (Rust release wrap semantics). -/
def u64 (n : Nat) : Nat := n % 2 ^ 64

/-- Truncation to an unsigned 128-bit value (Rust release wrap semantics). -/
def u128 (n : Nat) : Nat := n % 2 ^ 128

/-! ## values.rs — range normalization

`ValidRandomRange` maps each of the six Rust range shapes to a
normalized `(_start, _end)` pair over a `ValidRandomNumber` domain of
width `w` (32, 64 or 128).  `T::zero() = 0`, `T::one() = 1`,
`T::max() = 2^w - 1`.  The `_end` of `RangeInclusive` is
`*self.end() + T::one()` (wrapping at the domain maximum); the `_end`
of `RangeToInclusive` is `self.end`, as written in the source. -/

/-- `Range<T> (a..b)`: `_start` returns `self.start`. -/
def range_start (a b : Nat) : Nat := a

/-- `Range<T> (a..b)`: `_end` returns `self.end`. -/
def range_end (a b : Nat) : Nat := b

/-- `RangeInclusive<T> (a..=b)`: `_start` returns `*self.start()`. -/
def rangeInclusive_start (a b : Nat) : Nat := a

/-- `RangeInclusive<T> (a..=b)` over a `w`-bit domain: `_end` returns
`*self.end() + T::one()`, which wraps when `b` is the domain maximum. -/
def rangeInclusive_end (w a b : Nat) : Nat := (b + 1) % 2 ^ w

/-- `RangeFrom<T> (a..)`: `_start` returns `self.start`. -/
def rangeFrom_start (a : Nat) : Nat := a

/-- `RangeFrom<T> (a..)` over a `w`-bit domain: `_end` returns `T::max()`. -/
def rangeFrom_end (w a : Nat) : Nat := 2 ^ w - 1

/-- `RangeTo<T> (..b)`: `_start` returns `T::zero()`. -/
def rangeTo_start (b : Nat) : Nat := 0

/-- `RangeTo<T> (..b)`: `_end` returns `self.end`. -/
def rangeTo_end (b : Nat) : Nat := b

/-- `RangeToInclusive<T> (..=b)`: `_start` returns `T::zero()`. -/
def rangeToInclusive_start (b : Nat) : Nat := 0

/-- `RangeToInclusive<T> (..=b)`: `_end` returns `self.end` — the source
does not add one here, unlike the `RangeInclusive` implementation. -/
def rangeToInclusive_end (b : Nat) : Nat := b

/-- `RangeFull (..)`: `_start` returns `T::zero()`. -/
def rangeFull_start : Nat := 0

/-- `RangeFull (..)` over a `w`-bit domain: `_end` returns `T::max()`. -/
def rangeFull_end (w : Nat) : Nat := 2 ^ w - 1

/-! ## xorshift.rs — the four XORShift generators

Each single-register variant stores one unsigned integer of its width;
`new` rejects the zero seed; `randrange` advances the register by three
shift-xor steps and reduces the new register value into the normalized
range `[start, end)` by `x % (end - start) + start`. -/

/-- `XORShift32::new`: rejects seed `0`, otherwise the state is the seed. -/
def xorshift32_new (seed : Nat) : Except String Nat :=
  if seed = 0 then .error "seed must be initialized to non-zero"
  else .ok seed

/-- The three shift-xor steps of `XORShift32::randrange`
(`x ^= x << 13; x ^= x >> 17; x ^= x << 5` on `u32`). -/
def xorshift32Step (x : Nat) : Nat :=
  let x1 := x ^^^ u32 (x <<< 13)
  let x2 := x1 ^^^ (x1 >>> 17)
  x2 ^^^ u32 (x2 <<< 5)

/-- `XORShift32::randrange` over the normalized range `[s, e)`:
returns the drawn value and the updated register. -/
def xorshift32_randrange (state s e : Nat) : Nat × Nat :=
  let x := xorshift32Step state
  (x % (e - s) + s, x)

/-- `XORShift64::new`: rejects seed `0`, otherwise the state is the seed. -/
def xorshift64_new (seed : Nat) : Except String Nat :=
  if seed = 0 then .error "seed must be initialized to non-zero"
  else .ok seed

/-- The three shift-xor steps of `XORShift64::randrange`
(`x ^= x << 13; x ^= x >> 7; x ^= x << 17` on `u64`). -/
def xorshift64Step (x : Nat) : Nat :=
  let x1 := x ^^^ u64 (x <<< 13)
  let x2 := x1 ^^^ (x1 >>> 7)
  x2 ^^^ u64 (x2 <<< 17)

/-- `XORShift64::randrange` over the normalized range `[s, e)`. -/
def xorshift64_randrange (state s e : Nat) : Nat × Nat :=
  let x := xorshift64Step state
  (x % (e - s) + s, x)

/-- `XORShift128::new`: rejects seed `0`, otherwise the state is the seed. -/
def xorshift128_new (seed : Nat) : Except String Nat :=
  if seed = 0 then .error "seed must be initialized to non-zero"
  else .ok seed

/-- The three shift-xor steps of `XORShift128::randrange`
(`x ^= x << 11; x ^= x >> 8; x ^= x << 19` on `u128`). -/
def xorshift128Step (x : Nat) : Nat :=
  let x1 := x ^^^ u128 (x <<< 11)
  let x2 := x1 ^^^ (x1 >>> 8)
  x2 ^^^ u128 (x2 <<< 19)

/-- `XORShift128::randrange` over the normalized range `[s, e)`. -/
def xorshift128_randrange (state s e : Nat) : Nat × Nat :=
  let x := xorshift128Step state
  (x % (e - s) + s, x)

/-- `XORShift128Plus::new`: rejects the seed `[s0, s1]` exactly when
`s0 | s1 == 0`, otherwise the state is the seed pair. -/
def xorshift128plus_new (s0 s1 : Nat) : Except String (Nat × Nat) :=
  if s0 ||| s1 = 0 then
    .error "at least one bit of the seed must be initialized to non-zero"
  else .ok (s0, s1)

/-- The shift-xor recurrence of `XORShift128Plus::randrange` applied to
`x = state[0]` and `y = state[1]`
(`x ^= x << 23; x ^= x >> 18; x ^= y ^ (y >> 5)` on `u64`). -/
def xorshift128plusStep (x y : Nat) : Nat :=
  let x1 := x ^^^ u64 (x <<< 23)
  let x2 := x1 ^^^ (x1 >>> 18)
  x2 ^^^ (y ^^^ (y >>> 5))

/-- `XORShift128Plus::randrange` over the normalized range `[s, e)`:
`state[1]` receives the new `x`; the returned value is
`u128::from(x + y) % (e - s) + s`, where `x + y` is a 64-bit addition
(wrapping in release builds) performed before the widening conversion. -/
def xorshift128plus_randrange (state : Nat × Nat) (s e : Nat) : Nat × (Nat × Nat) :=
  let x := xorshift128plusStep state.1 state.2
  let y := state.2
  (u64 (x + y) % (e - s) + s, (state.1, x))

/-! ## mersennetwister.rs — the Mersenne Twister

State: the Rust `[u32; 624]` array plus a cursor `index`.  Here the 624
unsigned 32-bit words are packed into a single `Nat` in base `2^32`
(word `i` is digit `i`); `mtGet`/`mtSet` read and overwrite one digit,
mirroring `self.state[i]` reads and writes.  Seeding fills word 0 with
the seed and word `i` with
`1812433253 * (word[i-1] ^ (word[i-1] >> 30)) + i` truncated to 32
bits; the cursor starts at 625 (`n + 1`) so the first draw twists.  The
twist rewrites the 624 words in place, sequentially, so an iteration
reads already-rewritten earlier slots exactly as the Rust loop does. -/

/-- Read word `i` of the packed 624-word state (`self.state[i]`). -/
def mtGet (st i : Nat) : Nat := (st >>> (32 * i)) &&& 0xFFFFFFFF

/-- Overwrite word `i` of the packed 624-word state with `v`
(`self.state[i] = v`): keep the digits below `i`, the new digit, and
the digits above `i`. -/
def mtSet (st i v : Nat) : Nat :=
  st % 2 ^ (32 * i) + v * 2 ^ (32 * i) + (st >>> (32 * (i + 1))) * 2 ^ (32 * (i + 1))

/-- The seeding recurrence of `MersenneTwister::new`: the packed words
`i, i+1, …, i+k-1` given the previous word `prev`
(`wrapping_mul` by 1812433253, a `+ i` that wraps on `u32`, then
`& 0xFFFFFFFF`). -/
def mtSeedWords (prev i : Nat) : Nat → Nat
  | 0 => 0
  | k + 1 =>
    let w := u32 (u32 (1812433253 * (prev ^^^ (prev >>> 30))) + i) &&& 0xFFFFFFFF
    w + 2 ^ 32 * mtSeedWords w (i + 1) k

/-- The packed 624-word state built by `MersenneTwister::new` from a
seed: word 0 is the seed, words 1–623 follow the seeding recurrence. -/
def mtInit (seed : Nat) : Nat :=
  u32 seed + 2 ^ 32 * mtSeedWords (u32 seed) 1 623

/-- One iteration of the loop body of `MersenneTwister::twist` at index
`i`: combine the top bit of `state[i]` with the low 31 bits of
`state[(i+1) % 624]`, shift right by one, conditionally xor the twist
constant `0x9908B0DF` when the combination is odd, and store
`state[(i+397) % 624] ^ y` back into slot `i`. -/
def mtTwistStep (st i : Nat) : Nat :=
  let x := (mtGet st i &&& 0x80000000) + (mtGet st ((i + 1) % 624) &&& 0x7FFFFFFF)
  let y0 := x >>> 1
  let y := if x % 2 ≠ 0 then y0 ^^^ 0x9908B0DF else y0
  mtSet st i (mtGet st ((i + 397) % 624) ^^^ y)

/-- `MersenneTwister::twist`: the loop body applied at `i = 0, …, 623`
over the in-place updated state. -/
def mtTwist (st : Nat) : Nat :=
  (List.range 624).foldl mtTwistStep st

/-- The tempering sequence of `MersenneTwister::randrange`
(`x ^= (x>>11) & 0xFFFFFFFF; x ^= (x<<7) & 0x9D2C5680;
x ^= (x<<15) & 0xEFC60000; x ^= x >> 1` on `u32`). -/
def mtTemper (x : Nat) : Nat :=
  let x1 := x ^^^ ((x >>> 11) &&& 0xFFFFFFFF)
  let x2 := x1 ^^^ (u32 (x1 <<< 7) &&& 0x9D2C5680)
  let x3 := x2 ^^^ (u32 (x2 <<< 15) &&& 0xEFC60000)
  x3 ^^^ (x3 >>> 1)

/-- The Mersenne Twister generator state: the packed 624 words plus the
cursor. -/
structure MTState where
  state : Nat
  index : Nat
deriving Repr, DecidableEq

/-- `MersenneTwister::new`: seeds the 624 words and sets the cursor to
625 (`n + 1`), forcing a twist on the first draw.  The Rust function
returns `Ok` unconditionally: every 32-bit seed, zero included, is
accepted. -/
def mersenneTwister_new (seed : Nat) : Except String MTState :=
  .ok ⟨mtInit seed, 625⟩

/-- `MersenneTwister::randrange` over the normalized range `[s, e)`:
twist and reset the cursor when it has reached 624, temper the word at
the cursor, advance the cursor, and reduce into the range by
`(x & 0xFFFFFFFF) % (e - s) + s`. -/
def mersenneTwister_randrange (st : MTState) (s e : Nat) : Nat × MTState :=
  let stt := if st.index ≥ 624 then mtTwist st.state else st.state
  let idx := if st.index ≥ 624 then 0 else st.index
  let x := mtTemper (mtGet stt idx)
  ((x &&& 0xFFFFFFFF) % (e - s) + s, ⟨stt, idx + 1⟩)

/-! ## algorithm.rs / rand.rs — the generator contract and the facade

`RandomAlgorithm::randrange` in every concrete generator has the same
shape: advance the state by one step, obtain a raw unreduced value, and
reduce it into the normalized range by `raw % (end - start) + start`.
The facade `Random<T>` is generic over the algorithm, so it is embedded
generically: an algorithm is a state type `σ` with an `advance`
function producing the raw draw and the successor state. -/

/-- A generator algorithm: one state-advance step returning the raw
(unreduced) draw together with the new state.  Each of the five
concrete generators is an instance (e.g. for XORShift32,
`advance st = (xorshift32Step st, xorshift32Step st)`; for the
Mersenne Twister, the tempered word and the advanced cursor state). -/
structure GenAlg (σ : Type) where
  advance : σ → Nat × σ

/-- The shared range-reduction step of every `randrange`
implementation: advance once and return `raw % (e - s) + s` over the
normalized range `[s, e)`. -/
def algRandrange (A : GenAlg σ) (st : σ) (s e : Nat) : Nat × σ :=
  ((A.advance st).1 % (e - s) + s, (A.advance st).2)

/-- `Random::random` for a `w`-bit number domain: one draw over the full
domain `T::Number::zero()..T::Number::max()`, i.e. the normalized range
`[0, 2^w - 1)`, then `value.to_f64() / T::Number::max().to_f64()`.
The `f64` division is modeled as exact rational division. -/
def random (A : GenAlg σ) (w : Nat) (st : σ) : ℚ × σ :=
  (((algRandrange A st 0 (2 ^ w - 1)).1 : ℚ) / (((2 ^ w - 1 : Nat) : ℚ)),
    (algRandrange A st 0 (2 ^ w - 1)).2)

/-- The state after `n` draws of `Random::random` (each draw advances
the generator exactly once). -/
def nthState (A : GenAlg σ) (st : σ) : Nat → σ
  | 0 => st
  | n + 1 => (A.advance (nthState A st n)).2

/-- `Vec::swap(i, j)`: exchange positions `i` and `j`; Rust panics when
an index is out of bounds, which is modeled as `none`. -/
def shuffleSwap (v : List α) (i j : Nat) : Option (List α) :=
  if h : i < v.length ∧ j < v.length then
    some ((v.set i (v.get ⟨j, h.2⟩)).set j (v.get ⟨i, h.1⟩))
  else none

/-- The `while items > 0` loop of `Random::shuffle`: draw
`pos = randrange(0..=items)` (normalized range `[0, items + 1)`), swap
positions `pos` and `items` when they differ, and decrement `items`. -/
def shuffleLoop (A : GenAlg σ) : Nat → σ → List α → Option (List α × σ)
  | 0, st, v => some (v, st)
  | i + 1, st, v =>
    if (algRandrange A st 0 (i + 1 + 1)).1 = i + 1 then
      shuffleLoop A i (algRandrange A st 0 (i + 1 + 1)).2 v
    else
      match shuffleSwap v (algRandrange A st 0 (i + 1 + 1)).1 (i + 1) with
      | none => none
      | some v' => shuffleLoop A i (algRandrange A st 0 (i + 1 + 1)).2 v'

/-- `Random::shuffle`: Fisher–Yates, starting the movable boundary at
`vector.len() - 1`.  On an empty vector the Rust `usize` subtraction
`vector.len() - 1` underflows (panic in debug; in release the loop then
draws over an empty/overflowing range and panics on the reduction),
modeled as `none`. -/
def shuffle (A : GenAlg σ) (st : σ) (v : List α) : Option (List α × σ) :=
  match v.length with
  | 0 => none
  | n + 1 => shuffleLoop A n st v

/-- The `while items < amount` rejection-sampling loop of
`Random::sample`: draw `pos = randrange(0..length)` (normalized range
`[0, length)`), insert it into the set of chosen positions unless
already present, until `amount` distinct positions are chosen.  The
chosen positions are kept in insertion order (the Rust `HashSet`
iterates in an unspecified order).  The Rust loop has no iteration
bound; `fuel` bounds it here, `none` meaning it has not yet returned. -/
def sampleLoop (A : GenAlg σ) (length amount : Nat) :
    Nat → σ → List Nat → Option (List Nat × σ)
  | 0, st, positions =>
    if positions.length < amount then none
    else some (positions, st)
  | fuel + 1, st, positions =>
    if positions.length < amount then
      if (algRandrange A st 0 length).1 ∈ positions then
        sampleLoop A length amount fuel (algRandrange A st 0 length).2 positions
      else
        sampleLoop A length amount fuel (algRandrange A st 0 length).2
          (positions ++ [(algRandrange A st 0 length).1])
    else some (positions, st)

/-- `Random::sample`: fails when `amount > vector.len()` before drawing
anything; otherwise runs the rejection-sampling loop and returns the
elements at the chosen positions.  The result is paired with the final
generator state; `.ok none` means the unbounded Rust loop has not
returned within `fuel` iterations. -/
def sample (A : GenAlg σ) (st : σ) (v : List α) (amount fuel : Nat) :
    Except String (Option (List α)) × σ :=
  if amount > v.length then
    (.error "can't get a sample bigger than the population", st)
  else
    match sampleLoop A v.length amount fuel st [] with
    | none => (.ok none, st)
    | some (ps, st') => (.ok (some (ps.filterMap v.get?)), st')

/-- Iterated `XORShift128Plus::randrange` draws over a sequence of
normalized ranges, returning the final register pair. -/
def xorshift128plusIter (st : Nat × Nat) : List (Nat × Nat) → Nat × Nat
  | [] => st
  | (s, e) :: rs => xorshift128plusIter (xorshift128plus_randrange st s e).2 rs

/-- A tiny deterministic algorithm instance (raw draw `k` on the `k`-th
step) used to instantiate the generic facade theorems on concrete
inputs. -/
def demoAlg : GenAlg Nat := ⟨fun s => (s, s + 1)⟩

/-! ### Checkpoint constants for the seed-10 Mersenne Twister draw

The packed 624-word state after seeding with 10, and after 78, 156, …,
624 iterations of the twist loop.  They let the first-draw reference
value be checked by kernel evaluation in bounded steps. -/

/-- The packed state `mtInit 10`. -/
def mtStateSeed10 : Nat :=
  23484651349058997055809905578192838943657795990389191162499292538104433308937718997980762615752348545965818034969935889154262899337196053751537327840402707910313750119320408549694060801818267063405993361179610984365027940335439442787889603396060099242993145398473066389116236036675310868933788631674243540055319014945790366182640592368538199117154168350934371019198446459237943991468760727635812626634631207795573494074093884514324142155907033394819005991972273496102466337410752687765515816775564582785780116901012602703375800346333712525339930878671090007104033490860088910838371827278136663442188029715295165591946443279493452714608261801776019714157341683665153025935660943631317527431681042982437811435031750777376273259126030509442943673297833471886446369224721426512704511451703639121810191875158758832476988667432198358612751459519185550064339801426404833774087864652308293809009551578195583221039232632274329467808891417582474666847376422611824165816695645483615874167796834696459831280362346348296346914025407550794505694911010637922400301272664124703916365586966932529300098544409372657439225900377447122909030973632386013586128976495683198436137162059923365364283942870383568867589150279579950564116094317455156771895888837887587757458215278465204779886477378782523748075949685424478724910776346987097060473202260562575681689153119951640558776194647834240708611395431613933091248011048394636648896171021484940569825818822857747717724275356490986042199918119736009749851616635955025690726149578346413022915483046519449720881862736907475291345274630245575611084896573813190957507076865712234924604088808086943960833600669350738013284734543688037436304751211656151643388526570957707162511382035038757470041189386496893891252563466624771841790995888542285745491470989082782763966975197149191678899791412421120928030699593941214285201183516701751556354099219175148539046099034595149315244803667981428138151662802555552068250267410183592295928910834100223095980193723105654832293448004428780355018517105927730668054691363967699974593357442516158851703046285325242988177990860828894355425029564688468400042656968684386946067407090439989274263795761600017418652025985799661984519944711131871000829000339592019329264833728336984629224664862462818107011249949047299186630488437370844147478004446060929553766827967050615460139753399570668634240068128386864315416861799483790634008607322700474211863358177997794253733038195435939296541171900232890447847889240990902098855567796054989941623542946362323481900975469123573530084230911572104097192048276412170983294790526687917617001449530531195502689702081035169652371640109063560030794936931332313088791320002171651676059117177069389506495486776125635244723827115970605340736656351550007569072365538346621325757998462287331113134531693335327715332378547525344754724181413094693075942025279759293246350469250631706087041976024053533647086552092204323560498786569763825916254782973589681324458529813643874020039691245790471193550353525918375998014582633458690242931523069520831713723835784911326029123143016068736927465108601442893707888412946073012922443906465419418292156900972218135675757913491808750066561254194673518038005883492247290751094759003313816542870853404704569607496241345141194170820355872360114603851489336339672399329447011850604240656133481873886938453393532886656668709980509271928375391292219543675519576591084100717331020288397938691312130766281666605559892564035920358861249001857149982328359000314413574895332163969820910837940869808561193476136798642127343035569158861848276525852967894490648613057565087187836153331975562606046129648704178906885855312919432855599109890316372783091369510511820819849002607967766948994198325731823112285715509911386940796673101159201969889459392067967006561317741486005861822213136645275263654281928262862249420210069564770141319523051962600192298736085430538220875977885588292615789964401374447910997060134305253021227123606054806614538719905740833288715619885397905084490134872290396005378965222665829856956589501377846501794002325900357035944112104315925951837066173029864790779518296482084666863191155855478018450016573971618447706203498937364360931478316223296050762357712319591156544995295797060167576702620078710434786846661243859729494070368590537057855349546207886301772684500276421271477566991946552254273831660360433063177286746013282175565924740425356554144754926784342088361519753790241174905188027583540283828361795373364383344248866904298383580920004573831289862716029523615747759600450313954227519102275904842104714615652415136942904814082679894972583158423219557147491617475765366949579024178915106747343288835311996899670390638560667363788342406095198007471906164951710367815334523842515752502357484594375941478291541513583570693067255191746773508055021915536414653823195811902037973075569075606202745709842217955995470367567322743819974702172786666739734426187646371352915752262921164239579890336862941068514359633964745188556475353622106380728319960923066606257203959738222308762339936803134914592127306636386443835105086076945582520388811289984261184737654825040008504975292331749345716199501097596477502113998602369311142038170264315948359024378890301967485569569451704956420064237532270324786192309529506435891242627419472600441189241897278690094249156167452478619714095810467465628601935799801264369939990121062661652868437053319943698948337571146375769194148726907824575914710791110373786981560145328662885346709666658348271503242690307127745440831577019722059638532699132257671508665869750960711703651544605786744822737299923280210078442439714590736054350659573516926134245262076303570300773348525203757899693104295812526696945455912932899843184854312929919630919298545049482302770862045428089414611362093135828634017930766001651401526427265949480124153401661359968035797172510372608178143980060446241103443429799814446827257460754616476435789344029820209722295335310701054443383240693290554712124735732809805229525772250512754019670500519598760821022453357757745581162444443615242

/-- The packed state after 78 twist-loop iterations from `mtStateSeed10`. -/
def mtStateTw78 : Nat :=
  23484651349058997055809905578192838943657795990389191162499292538104433308937718997980762615752348545965818034969935889154262899337196053751537327840402707910313750119320408549694060801818267063405993361179610984365027940335439442787889603396060099242993145398473066389116236036675310868933788631674243540055319014945790366182640592368538199117154168350934371019198446459237943991468760727635812626634631207795573494074093884514324142155907033394819005991972273496102466337410752687765515816775564582785780116901012602703375800346333712525339930878671090007104033490860088910838371827278136663442188029715295165591946443279493452714608261801776019714157341683665153025935660943631317527431681042982437811435031750777376273259126030509442943673297833471886446369224721426512704511451703639121810191875158758832476988667432198358612751459519185550064339801426404833774087864652308293809009551578195583221039232632274329467808891417582474666847376422611824165816695645483615874167796834696459831280362346348296346914025407550794505694911010637922400301272664124703916365586966932529300098544409372657439225900377447122909030973632386013586128976495683198436137162059923365364283942870383568867589150279579950564116094317455156771895888837887587757458215278465204779886477378782523748075949685424478724910776346987097060473202260562575681689153119951640558776194647834240708611395431613933091248011048394636648896171021484940569825818822857747717724275356490986042199918119736009749851616635955025690726149578346413022915483046519449720881862736907475291345274630245575611084896573813190957507076865712234924604088808086943960833600669350738013284734543688037436304751211656151643388526570957707162511382035038757470041189386496893891252563466624771841790995888542285745491470989082782763966975197149191678899791412421120928030699593941214285201183516701751556354099219175148539046099034595149315244803667981428138151662802555552068250267410183592295928910834100223095980193723105654832293448004428780355018517105927730668054691363967699974593357442516158851703046285325242988177990860828894355425029564688468400042656968684386946067407090439989274263795761600017418652025985799661984519944711131871000829000339592019329264833728336984629224664862462818107011249949047299186630488437370844147478004446060929553766827967050615460139753399570668634240068128386864315416861799483790634008607322700474211863358177997794253733038195435939296541171900232890447847889240990902098855567796054989941623542946362323481900975469123573530084230911572104097192048276412170983294790526687917617001449530531195502689702081035169652371640109063560030794936931332313088791320002171651676059117177069389506495486776125635244723827115970605340736656351550007569072365538346621325757998462287331113134531693335327715332378547525344754724181413094693075942025279759293246350469250631706087041976024053533647086552092204323560498786569763825916254782973589681324458529813643874020039691245790471193550353525918375998014582633458690242931523069520831713723835784911326029123143016068736927465108601442893707888412946073012922443906465419418292156900972218135675757913491808750066561254194673518038005883492247290751094759003313816542870853404704569607496241345141194170820355872360114603851489336339672399329447011850604240656133481873886938453393532886656668709980509271928375391292219543675519576591084100717331020288397938691312130766281666605559892564035920358861249001857149982328359000314413574895332163969820910837940869808561193476136798642127343035569158861848276525852967894490648613057565087187836153331975562606046129648704178906885855312919432855599109890316372783091369510511820819849002607967766948994198325731823112285715509911386940796673101159201969889459392067967006561317741486005861822213136645275263654281928262862249420210069564770141319523051962600192298736085430538220875977885588292615789964401374447910997060134305253021227123606054806614538719905740833288715619885397905084490134872290396005378965222665829856956589501377846501794002325900357035944112104315925951837066173029864790779518296482084666863191155855478018450016573971618447706203498937364360931478316223296050762357712319591156544995295797060167576702620078710434786846661243859729494070368590537057855349546207886301772684500276421271477566991946552254273831660360433063177286746013282175565924740425356554144754926784342088361519753790241174905188027583540283828361795373364383344248866904298383580920004573831289862716029523615747759600450313954227519102275904842104714615652415136942904814082679894972583158423219557147491617475765366949579024178915106747343288835311996899670390638560667363788342406095198007471906164951710367815334523842515752502357484594375941478291541513583570693067255191746773508055021915536414653823195811902037973075569075606202745709842217955995470367567322743819974702172786666739734426187646371352915752262921164239579890336862941068514359633964745188556475353622106380728319960923066606257203959738222308762339936803134914592127306636386443835105086076945582520388811289984261184737654825040008504975292331749345716199501097596477502113998602369311142038170264315948359024378890301967485569569451704956420064237532270324786192309529506435891242627419472600441189243912881689665767316290020065479535852108757148866278552364483985915280454852675456990270706633579191766168824286762439778168043076757400148461959198259132252633019651099537962479202655923373178585950955179000851134353888130321867222702673324878059600555947950049465272217771656095102603578067716920170891127445095068285852043511880309487178548346678595074584918303238673767650106294039328015359427646057857343816032518677947000835218119498086566380184397690076217612278088789209479734860938436290191724446687774705881145638473428838591803542818940654240452240645925585026507970454598966333373483314977269105484342154862842811047646670887732079518419481329068099232495189377936846790474714905626836026255912336447507706808225789588801012423872279166003

/-- The packed state after 156 twist-loop iterations from `mtStateSeed10`. -/
def mtStateTw156 : Nat :=
  23484651349058997055809905578192838943657795990389191162499292538104433308937718997980762615752348545965818034969935889154262899337196053751537327840402707910313750119320408549694060801818267063405993361179610984365027940335439442787889603396060099242993145398473066389116236036675310868933788631674243540055319014945790366182640592368538199117154168350934371019198446459237943991468760727635812626634631207795573494074093884514324142155907033394819005991972273496102466337410752687765515816775564582785780116901012602703375800346333712525339930878671090007104033490860088910838371827278136663442188029715295165591946443279493452714608261801776019714157341683665153025935660943631317527431681042982437811435031750777376273259126030509442943673297833471886446369224721426512704511451703639121810191875158758832476988667432198358612751459519185550064339801426404833774087864652308293809009551578195583221039232632274329467808891417582474666847376422611824165816695645483615874167796834696459831280362346348296346914025407550794505694911010637922400301272664124703916365586966932529300098544409372657439225900377447122909030973632386013586128976495683198436137162059923365364283942870383568867589150279579950564116094317455156771895888837887587757458215278465204779886477378782523748075949685424478724910776346987097060473202260562575681689153119951640558776194647834240708611395431613933091248011048394636648896171021484940569825818822857747717724275356490986042199918119736009749851616635955025690726149578346413022915483046519449720881862736907475291345274630245575611084896573813190957507076865712234924604088808086943960833600669350738013284734543688037436304751211656151643388526570957707162511382035038757470041189386496893891252563466624771841790995888542285745491470989082782763966975197149191678899791412421120928030699593941214285201183516701751556354099219175148539046099034595149315244803667981428138151662802555552068250267410183592295928910834100223095980193723105654832293448004428780355018517105927730668054691363967699974593357442516158851703046285325242988177990860828894355425029564688468400042656968684386946067407090439989274263795761600017418652025985799661984519944711131871000829000339592019329264833728336984629224664862462818107011249949047299186630488437370844147478004446060929553766827967050615460139753399570668634240068128386864315416861799483790634008607322700474211863358177997794253733038195435939296541171900232890447847889240990902098855567796054989941623542946362323481900975469123573530084230911572104097192048276412170983294790526687917617001449530531195502689702081035169652371640109063560030794936931332313088791320002171651676059117177069389506495486776125635244723827115970605340736656351550007569072365538346621325757998462287331113134531693335327715332378547525344754724181413094693075942025279759293246350469250631706087041976024053533647086552092204323560498786569763825916254782973589681324458529813643874020039691245790471193550353525918375998014582633458690242931523069520831713723835784911326029123143016068736927465108601442893707888412946073012922443906465419418292156900972218135675757913491808750066561254194673518038005883492247290751094759003313816542870853404704569607496241345141194170820355872360114603851489336339672399329447011850604240656133481873886938453393532886656668709980509271928375391292219543675519576591084100717331020288397938691312130766281666605559892564035920358861249001857149982328359000314413574895332163969820910837940869808561193476136798642127343035569158861848276525852967894490648613057565087187836153331975562606046129648704178906885855312919432855599109890316372783091369510511820819849002607967766948994198325731823112285715509911386940796673101159201969889459392067967006561317741486005861822213136645275263654281928262862249420210069564770141319523051962600192298736085430538220875977885588292615789964401374447910997060134305253021227123606054806614538719905740833288715619885397905084490134872290396005378965222665829856956589501377846501794002325900357035944112104315925951837066173029864790779518296482084666863191155855478018450016573971618447706203498937364360931478316223296050762357712319591156544995295797060167576702620078710434786846661243859729494070368590537057855349546207886301772684500276421271477566991946552254273831660360433063177286746013282175565924740425356554144754926784342088361519753790241174905188027583540283828361795373364383344248866904298383580920004573831289862716029523615747759600450313799757545113636593544084159392829637547627516273533582076961135136226898436656762483405736380016018900090426544412597236052343459394448238609088985403535231774245681227032927167681468661872401369042377491348174393621910683245325093322684730042610883380837899479263174680450834124809676183476027167322857498651710491338747500493175113750071913668754421773249969651042641747308112678098662551516257586428557561838160766742754603801071400690784344179785046439717377832449823259121234398514070942160826955695682695054975046218699691108408731924112323550279012253266108954946630144159607629103698384921210722230359098267285905649200283756753025085626655926258672936347527574366942144506460157905898579560130108959090948788399748508673618081489596105561745716734241812670719134011061009687431615427531058322370288152503789293999479879669258397134048948751302396691605779877908028729829564630488056125131431302505188568642877754617117301267914245018128806904364233991644588304629355122855524836583260859501039022734285781090496045221668603906348614779254705082625807200979844624052350536523746151944190259653289434650208080718952866165181130798579124860448031212982701044585189715156445203637648516699793065391810220509278507775333884664779261775792031113292955000788489199822382749811243671483826833773150715417178204090670267300115474681457208538876376334074341426692138507459558745638502235093618139169417032776987038914693017618360354335497321936031555275017325023806595597293283561191421339267852508806195

/-- The packed state after 234 twist-loop iterations from `mtStateSeed10`. -/
def mtStateTw234 : Nat :=
  23484651349058997055809905578192838943657795990389191162499292538104433308937718997980762615752348545965818034969935889154262899337196053751537327840402707910313750119320408549694060801818267063405993361179610984365027940335439442787889603396060099242993145398473066389116236036675310868933788631674243540055319014945790366182640592368538199117154168350934371019198446459237943991468760727635812626634631207795573494074093884514324142155907033394819005991972273496102466337410752687765515816775564582785780116901012602703375800346333712525339930878671090007104033490860088910838371827278136663442188029715295165591946443279493452714608261801776019714157341683665153025935660943631317527431681042982437811435031750777376273259126030509442943673297833471886446369224721426512704511451703639121810191875158758832476988667432198358612751459519185550064339801426404833774087864652308293809009551578195583221039232632274329467808891417582474666847376422611824165816695645483615874167796834696459831280362346348296346914025407550794505694911010637922400301272664124703916365586966932529300098544409372657439225900377447122909030973632386013586128976495683198436137162059923365364283942870383568867589150279579950564116094317455156771895888837887587757458215278465204779886477378782523748075949685424478724910776346987097060473202260562575681689153119951640558776194647834240708611395431613933091248011048394636648896171021484940569825818822857747717724275356490986042199918119736009749851616635955025690726149578346413022915483046519449720881862736907475291345274630245575611084896573813190957507076865712234924604088808086943960833600669350738013284734543688037436304751211656151643388526570957707162511382035038757470041189386496893891252563466624771841790995888542285745491470989082782763966975197149191678899791412421120928030699593941214285201183516701751556354099219175148539046099034595149315244803667981428138151662802555552068250267410183592295928910834100223095980193723105654832293448004428780355018517105927730668054691363967699974593357442516158851703046285325242988177990860828894355425029564688468400042656968684386946067407090439989274263795761600017418652025985799661984519944711131871000829000339592019329264833728336984629224664862462818107011249949047299186630488437370844147478004446060929553766827967050615460139753399570668634240068128386864315416861799483790634008607322700474211863358177997794253733038195435939296541171900232890447847889240990902098855567796054989941623542946362323481900975469123573530084230911572104097192048276412170983294790526687917617001449530531195502689702081035169652371640109063560030794936931332313088791320002171651676059117177069389506495486776125635244723827115970605340736656351550007569072365538346621325757998462287331113134531693335327715332378547525344754724181413094693075942025279759293246350469250631706087041976024053533647086552092204323560498786569763825916254782973589681324458529813643874020039691245790471193550353525918375998014582633458690242931523069520831713723835784911326029123143016068736927465108601442893707888412946073012922443906465419418292156900972218135675757913491808750066561254194673518038005883492247290751094759003313816542870853404704569607496241345141194170820355872360114603851489336339672399329447011850604240656133481873886938453393532886656668709980509271928375391292219543675519576591084100717331020288397938691312130766281666605559892564035920358861249001857149982328359000314413574895332163969820910837940869808561193476136798642127343035569158861848276525852967894490648613057565087187836153331975562606046129648704178906885855312919432855599109890316372783091369510511820819849002607967766948994198325731823112285715509911386940796673101159201969889459392067967010559445113452708376625792310346571875160248472404175272608558277554250699460641914892839392148815697270002053645191424328558546806488703985684267989550380692372000253519045035467736243893487073357467638832383319606973746254603525250515818467034872560970155735053968926951477929629965084092299683825400527881827811436843504320749518509271593154944518170675973856766072354448329243047154374133111219437018849865639056521496420374129032875344813512774737208182754907857323985974153686540053121954506618371822105894181212231366261205238745548595958157360727202730205059259546387173641098151405876817092399172519109160416010725219620001017339805744196468043063361468337123454369183509133000368663611954734877577101919830299336526803758128477769271173602718098191143892899602190589860002109314690676854389150288046920890630542352007834403931923656306306502412213209781735416656284849066144775210076528803032499740220079704291522155046137166021580859290932123498372759814571387861594118443365498553418498748694525590915743411658071242717519064222042473760723907971244385707015296315686675171835613705476753495740536693135767020656858490934584016358113804418402678680735640698570218742738006160065981882531170923063936663160710156333539408539479145432982208068773777154179482284535122730707285703427701421945695208607776303259887629993398701709153153346308017336259338839739238232161035750818147133939565088774690082676928712800178915141861460040921916385359924583169866442026739134064390181106017298978091259557118718814044510397414201344549887015257538540719978749589721236102180154208720520114909993188377396216558314789307153672096459044651409328288650526130042296040287729958895390520839480293490338334694723237943064095965997702967197482902958187945911461218662606996963717631190199329425018846423338726121481730849723181682845255558753837187086091154144897698442295842061341157319660492647071906872991745511296377284638116219994675797169534704680627347625054074017445536675071152196223474610225806467681139596126246896713584677842775894847020511401245876487095213132162048146620858738175113763202925374824283525521956298059937648543920749183811178684105338419271173805776603059378292800394883904350794723952684022310455333215890180637841644360568935758899

/-- The packed state after 312 twist-loop iterations from `mtStateSeed10`. -/
def mtStateTw312 : Nat :=
  23484651349058997055809905578192838943657795990389191162499292538104433308937718997980762615752348545965818034969935889154262899337196053751537327840402707910313750119320408549694060801818267063405993361179610984365027940335439442787889603396060099242993145398473066389116236036675310868933788631674243540055319014945790366182640592368538199117154168350934371019198446459237943991468760727635812626634631207795573494074093884514324142155907033394819005991972273496102466337410752687765515816775564582785780116901012602703375800346333712525339930878671090007104033490860088910838371827278136663442188029715295165591946443279493452714608261801776019714157341683665153025935660943631317527431681042982437811435031750777376273259126030509442943673297833471886446369224721426512704511451703639121810191875158758832476988667432198358612751459519185550064339801426404833774087864652308293809009551578195583221039232632274329467808891417582474666847376422611824165816695645483615874167796834696459831280362346348296346914025407550794505694911010637922400301272664124703916365586966932529300098544409372657439225900377447122909030973632386013586128976495683198436137162059923365364283942870383568867589150279579950564116094317455156771895888837887587757458215278465204779886477378782523748075949685424478724910776346987097060473202260562575681689153119951640558776194647834240708611395431613933091248011048394636648896171021484940569825818822857747717724275356490986042199918119736009749851616635955025690726149578346413022915483046519449720881862736907475291345274630245575611084896573813190957507076865712234924604088808086943960833600669350738013284734543688037436304751211656151643388526570957707162511382035038757470041189386496893891252563466624771841790995888542285745491470989082782763966975197149191678899791412421120928030699593941214285201183516701751556354099219175148539046099034595149315244803667981428138151662802555552068250267410183592295928910834100223095980193723105654832293448004428780355018517105927730668054691363967699974593357442516158851703046285325242988177990860828894355425029564688468400042656968684386946067407090439989274263795761600017418652025985799661984519944711131871000829000339592019329264833728336984629224664862462818107011249949047299186630488437370844147478004446060929553766827967050615460139753399570668634240068128386864315416861799483790634008607322700474211863358177997794253733038195435939296541171900232890447847889240990902098855567796054989941623542946362323481900975469123573530084230911572104097192048276412170983294790526687917617001449530531195502689702081035169652371640109063560030794936931332313088791320002171651676059117177069389506495486776125635244723827115970605340736656351550007569072365538346621325757998462287331113134531693335327715332378547525344754724181413094693075942025279759293246350469250631706087041976024053533647086552092204323560498786569763825916254782973589681324458529813643874020039691245790471193550353525918375998014582633458690298363663406232611532983484424908922266401843571291460440172305153836751059232060699720944186791008275931066116509259297027191663122615266918304660068006591405057250716447046898435472014072744988059050258706699940493324084105234827273628197053416989135195497799872502947942432908136842992969064328092726706721635241449340415141528815517603057907238416473248939978274467373571422417394374036924439501780935622515948690128887333285707626820243013198249123164195439319625816524008747462206090004967812402469336454627260110540592492395341553201487238562674634100573047645889527320951969015102738909969446567393005505116498512482722049139362797390250549098537663148953520222037372099335656750463706889436329639187569513012432523128208425525419290778111288293574897587580041052829148730089721289537079726337011809584209167200038166350673815289949595411565987018749490668009756175610890486146137814596816599669796743789349447889128709282344324382410173567649704216005389822506377831814840423687166143558750919599805831814513467267280424637162954997151338541413675269721713437702532581313681572725724832270143835871943612743449433277192624586330461438903019250134807875717378297489494189676916265650719961080421406560482682500588786943985718831092757773319717268994336894811524702346548057364915996514627904969730385107702526267543108211751994971831132982625772299926508095440142694150488530710631604575426258064031535331125951356165171642536244886059614296547079684958004831491298868280228967826336188682891080144976770082857370049385838441497151259644462829524420171775498390795923324227349032367438526969378725521542465930284020541919157757801358423368114524524114384298577235277895494150003247160608922122555606341940631267943425636000496351831858331242504466136988971443572833409776767666916085488160769920055109617579352254772282735651699594941987250402438837660465809259154708744999599102386195088595269452115253911303581017393769518229577529973642977773652277092842944651440500246585320962350821656722320906229077807901417286003901513124561241303673777301313555075209240261619510314621874894473297681698964779542946801575440991752718748027867456657779438245534849417536290378278832410896534804854851815833101377409260889943487192905796134383463539730988562992296994515091465809085828697208493758470725552225952973113036692336298503820496025879598616237187291871457564954845292280619098885262682790316023536524554506889133655144356332991897622938523283119293795576807929649519245536778146887206511093971420219243588747033737338446218636733866831848918636368596019130874933258715693180869482295517144290672774980048533372094794291598002554021895976396813982398320161761489090642711236515957762475488209510823700308784108384547061060100345580579298572406890134982177663225209109032498111989095556660395383445318521015234509859652524996901002264815351287054355193846844558901303564320180106901336193410397125839908575051772357982164359373626645298685561859658746586531210645541689194325924335689974394360380467

/-- The packed state after 390 twist-loop iterations from `mtStateSeed10`. -/
def mtStateTw390 : Nat :=
  23484651349058997055809905578192838943657795990389191162499292538104433308937718997980762615752348545965818034969935889154262899337196053751537327840402707910313750119320408549694060801818267063405993361179610984365027940335439442787889603396060099242993145398473066389116236036675310868933788631674243540055319014945790366182640592368538199117154168350934371019198446459237943991468760727635812626634631207795573494074093884514324142155907033394819005991972273496102466337410752687765515816775564582785780116901012602703375800346333712525339930878671090007104033490860088910838371827278136663442188029715295165591946443279493452714608261801776019714157341683665153025935660943631317527431681042982437811435031750777376273259126030509442943673297833471886446369224721426512704511451703639121810191875158758832476988667432198358612751459519185550064339801426404833774087864652308293809009551578195583221039232632274329467808891417582474666847376422611824165816695645483615874167796834696459831280362346348296346914025407550794505694911010637922400301272664124703916365586966932529300098544409372657439225900377447122909030973632386013586128976495683198436137162059923365364283942870383568867589150279579950564116094317455156771895888837887587757458215278465204779886477378782523748075949685424478724910776346987097060473202260562575681689153119951640558776194647834240708611395431613933091248011048394636648896171021484940569825818822857747717724275356490986042199918119736009749851616635955025690726149578346413022915483046519449720881862736907475291345274630245575611084896573813190957507076865712234924604088808086943960833600669350738013284734543688037436304751211656151643388526570957707162511382035038757470041189386496893891252563466624771841790995888542285745491470989082782763966975197149191678899791412421120928030699593941214285201183516701751556354099219175148539046099034595149315244803667981428138151662802555552068250267410183592295928910834100223095980193723105654832293448004428780355018517105927730668054691363967699974593357442516158851703046285325242988177990860828894355425029564688468400042656968684386946067407090439989274263795761600017418652025985799661984519944711131871000829000339592019329264833728336984629224664862462818107014924229042715456078247998825406939475523789903529093167698939288256254475947735486128868687781380561509562767267443006124306816560777229992815735080825478771376818604830805115074112222128167839913565189623196698094518682438237061147996431422763042456068068306199176885139106005898374303196407543648663269108857329286734509023584474375093228923135470877343877392603390694416912956227765782402038549957124164667412987154442593489354450583061637288202981947015994722786288716539130011700265723995529264588894178711375661749423208660213714626537579111085532872136995590572365381705168169748288891804088685172801248789573896237380006232101520338050255172538231850720736015990839470410095059059195323207645696333636534289641179651558343107431050823609164813535740384739464855969996602191206658154130245566847998534109134558393490099382817584584831215872084877806357142247455249085190284619179232999153528749229247397747074772468540828296023518004971693500387361496844830215485920494064306801477868160567333493098590770520252033883663015352931866389237880790690704848025331253469700061236178331630432922510598576585886665309527070072324444302585361809883492831621802404187659649791740062510026545182369221485650360315412206614142653217301037485619840581686402074972722250713669021742564303860929422666422326681314683118065089710722863215021740030130015793962665699807136098150211862636193568312102053629817171014717184756947985511863006424205346772352711989413665166185712897614016217013652565376670059115066243316431213886227757575297811089127627341784576789337822823235794218673611396784739366215491556601359170647700528354748402336135496732695977386837994979969932134737970747226414868809949457923606484672712734869601550534677762745206491811702639652294195521004825856606647094785716228820232453525199630506485034566202403120804503741307855303032513249106983356892518639361584269087087820752038517152119993212664895539996595339253954899561723333519737459219754279559278802038269626379425973332790895835136042772900910127883129053035214680656371664511488148222814586791986352665536245255982009052708732855459838211466417777805131757721331716064148757221723245646231678347674083218792624416670951497559573364034030528531561652407410859432022559968555230461599531753660466094221383127011353542110914279834712270942632797779795300028333712875142116524899217617008467819979352037408555269859573582450253859298914861424207712050115189993825094961292813192613955203448170427944895109599966705388287217747908645389638009003253328748037801721491704626097184395770493764554707264119239889713110391897674091236905730821013857107135070297529074652890588735405902394679320675007886998039302965868576898003281021210073833696805836518610471537832253135092825426986701654981711250373494524910211356453153117512254125225298260423935827153376932173908800846079952531487595940126680916931391511323761849640581723142044983351551326882632245405332117871520490300045067296515652972127137983677060225710390937574282141995894571859743721165750852502750599477890705264032478278449730642503079656164790824408970114617249652670751907776081674947780948289954736173950177267637659893882398305258391650212367582627058544745718150865757809632051787784405402295455198875251918904511783284034187558012450440163979042245973983303054539027532069170810802489017246958984111458630458339829284821615385176981203308465161824038130754020900254297394148087571273549418794972443215704422211266802019521876149699215185606949856002856692216541059720266689232378256407007652031885864886385620170077937468759206474296959158161504108169220112730139943209932841247166110682051214860877860752760302672719385081658988942760757657397037616787733657870484607445361402946820334332451408172265648915787905779317811

/-- The packed state after 468 twist-loop iterations from `mtStateSeed10`. -/
def mtStateTw468 : Nat :=
  23484651349058997055809905578192838943657795990389191162499292538104433308937718997980762615752348545965818034969935889154262899337196053751537327840402707910313750119320408549694060801818267063405993361179610984365027940335439442787889603396060099242993145398473066389116236036675310868933788631674243540055319014945790366182640592368538199117154168350934371019198446459237943991468760727635812626634631207795573494074093884514324142155907033394819005991972273496102466337410752687765515816775564582785780116901012602703375800346333712525339930878671090007104033490860088910838371827278136663442188029715295165591946443279493452714608261801776019714157341683665153025935660943631317527431681042982437811435031750777376273259126030509442943673297833471886446369224721426512704511451703639121810191875158758832476988667432198358612751459519185550064339801426404833774087864652308293809009551578195583221039232632274329467808891417582474666847376422611824165816695645483615874167796834696459831280362346348296346914025407550794505694911010637922400301272664124703916365586966932529300098544409372657439225900377447122909030973632386013586128976495683198436137162059923365364283942870383568867589150279579950564116094317455156771895888837887587757458215278465204779886477378782523748075949685424478724910776346987097060473202260562575681689153119951640558776194647834240708611395431613933091248011048394636648896171021484940569825818822857747717724275356490986042199918119736009749851616635955025690726149563994014047035196962388500243211162555555023455708992386758577291622579254119817818718290095787180166454668417141183767495953886439115623033402076008119205194534282799738187935531631434731372521340233495736010153128202056674241039938865173552837191211814112682981337881237098268800575733412436706678145635168101541746043033710740398457132324090902009956663701825538824174338928279799758579743965560208404814131256089978640294196115819725646056883481526428102087192229475174825898740092085957121071593093995700948703770330660121391854386845537059858820791236511211715963765593748238109963325622163988430479473007111949059966030957923437487564834435791842126237726728883742425739741433899783684396138771099841763599897034873480178990918251998802626665215468240732749383273007559012896238069882658242962634735890121619294219357110318599316318144954554071225089074477641254940386893930171310986949388510795026463824224541687672999182550085310060255167005697278178532080238582512460953916672924687265821501453967032824574562518536133412583151117417152132869638426241922035083436197454101647949147538939734240426351698741763585103157216146247521748551602727833400639129909766287984597440436827980806943429294853782079038258670356655220134911877890577645987954462582132882808596306534535807750210239680602820246827640849258265684048498159191399892777149023330324569287676102456023693170402688777036072453492190929136780309972734313615463131774110773379405508047275210836629588522892116907577158906078913464723761108526714013551590690289131475779363828838633374847997557492830817235781920452621801599092044630888346765181512982772124284740069863960847308844262037701015361654772163705146716957698648757601567592245660368085989053769082762018245858341730809643698280844680631120684523039168032859557810912167721572714458260105337539851468105804387941205702215242977468784115512167268735026858076800953591494247057205013897796544126316292405495893836764104137598019871438090220597658425134613201750305084745601667665105811951640967550389213654351590773852105285956317278301889079494913032647485549910162118751246167196884692143767632728870254299964576622419188752533579696476798789250935287028677360430014255775208691999841364552814807552413379329725219418167552446503129907192246957405288033557311606601872163222292173411689446551593156014854931217821360585493716316909753389725266731768831934241379311547982663669775699421509584769119257544268481508043302312242221466796741331173010949746832965642163608061258721133516408101932115260816586449136416046577999585471519434670484001851664970688084430045850492793896065353083159496982986194123219563787247571609724260397024131199838351341555157743148779178506046204607457396951084019606946651045445360929203691472722374413767577564373952970404606359007323842720920424005759222950110839083449825584666031429307643030088706534151333206999093236609715616492553862892286178454876780779423050616788144701743041029779370108356150152936747337880342934942428568528981733882235831854211963859334756183535449872705603757938099827094192887870280676625139033058473404365955203816754878085353876776244727401240240647003946514266203143557262768121158925262000016517790650033101484795059909712504170481315076944753968476113386337040242809411261526437745842854906119371705264568931377151614404764479550865344643672833279574224822482942365350794271055804892833553472082707808683820242529686446571451643205578387939202707633739602581326215643263500991867084273582441687921092976306907462629586354800290167471117108687263451769844421659636382539333760740364824958061771238308482449383419635413400777396474426148709545621204765401752648358214277613789542507613806834485389012474523503817007496520558123103775286583970982029634818158926447046402009721419430540009773371025733738242195863729168176737767560311330030335548266937545397302343831719163794183263918146772915738610218935060029645116607316330609225375225513979583745121329814001699715465545347772121872397120921062393499784653640198635412750481224748744963922228579929449478263977153345244425557989892372110266028617111730351608638387527785513609051232318154876267140476689085230906683437325360902182003939021117420975266729773823203471041636187726145762370311782743658281444272283372492128024611203660597231440396129297430145150569318830015607163910178785321144940338861889568710090123594078845798351978697740781549462668066193958287055900332440306777991822130929709172983715229210670682418691491371278237658210823784691734123068467

/-- The packed state after 546 twist-loop iterations from `mtStateSeed10`. -/
def mtStateTw546 : Nat :=
  23484651349058997055809905578192838943657795990389191162499292538104433308937718997980762615752348545965818034969935889154262899337196053751537327840402707910313750119320408549694060801818267063405993361179610984365027940335439442787889603396060099242993145398473066389116236036675310868933788631674243540055319014945790366182640592368538199117154168350934371019198446459237943991468760727635812626634631207795573494074093884514324142155907033394819005991972273496102466337410752687765515816775564582785780116901012602703375800346333712525339930878671090007104033490860088910838371827278136663442188029715295165591946443279493452714608261801776019714157341683665153025935660943631317527431681042982437811435031750777376273259126030509442943673297833473252170491213347435432248480929417488838138573923293512154182096179484257208138724700451900472735474302044083875723545281477469862562996513306265586852498336304217542886142623911044178813835457695356348108536715130186148631766255187038605314303890230388680708568577738464870727060465180024172923994493443114462509048777633115345163990701333538850806604189920671678794114045903486033699356127653586119787629801251365047991812874948614937727308290431073543319712753307949017404281650935615726332313657269314475613583941019980897231380116975401192162920251906345542172289007110993649966097317476970254185507394369351728933078131959322294148951738786145482811412628086125917958992879734082538304824345275444957779726297003650354285533783747800527465859910115597277417024938030162792454084615032309300005005754946046983903203045257928916680515263226170098062841352608514777332065151731625941349111476245580349934762888765440483767441535913795318362284563867893711956425594583704317675977949623443825637822466829886504040479381856319952951263110834963588423005856093384704692419968683727967100810954520469729442168710653613918064484277777672584787874086705199223140550398354617785363145494394503916184675218555768213631222477397987420779055251773135709416638945294783719986694864945742996184281343671307264011587673154193019305464810369159954479016767073913208411396189244568963647520453907446793676880020161473807534410020332826434999876058821790009132250427246635237861237721089561872876941830396253382064096954468099190856680062544469089949005082663621184709534806861652244762306410153206789270473961683195306053450240352466756893593628085360666187987160554051081755982167007570149192669322594938132584137150530611832565816964408700859398241702966464626953133321534956792709705240303447519615482307381686049698945194015463111155245289714240929081054799328864127519678235876936901133623031081546725655068137630969980751821139248925415594231797216165615848521656453506468592024708702479128013590444131907372650773416249834299277082399338585239578066318644315274217455133693545306451864316182285693868463031153435079597904067826349581817245222218675115353305941401836719496784044568144207988980062895743040281353980027213969986658359647785920215773783787405984572682658379323643532783216131713560304471472104113115969554169822820914746537491172731578466831428492596429278080607737986863815454681850916408709925791633318623996435239847848502465945049997045288521121375747587578858603569350321755773920666481543593790210239213797406333001320154986458250628600435206643416350057934007288491799478043625838065206443534419990664469083558902984947077947674328204487499199983485923051511101484069216606972245589491140991354320197870578718665633244726052353973373814165625783026695801416224190833536947225933432613645638807202628873638649833837774186888177415504297990103936937946254008018997870337184498919441321355906762427149601250733608997075012349915994013347053051115763396550554940259888725363438950231127096512671569109347690082879125647271955041618305260775092078413012344067207253484735765242183693023885262630410629554709631591003461003490783928930267759869553493578323246227188885316609226995957375909503909514398845751853718263933072885214182561347909411213474208279189000693873651049826679598208252509151833742057867144970626238504561771630867814973999274524511297964182505368013318708530542646692896862414584336953887197202711916012685302084510927341774350312725210262003990054451367739906000418552894703082796911318675995675490910145447738869336942507544853613667600365620097130936308541748312859830395904715230477505766868983821540600683410599869719878310435534724073192664224076566788851590517115695582190942790717875100552965623090959867675664749851888339965287467318550719682282197839377337714001596951111555761533558737782697500185196604280263307385207127419796410366726380938309571247461659607112348357339227406683184848934568361053030419476059417338527733021998698970354944298161650021583352126374098967151893634967680746915994571439916466406416475096050609988180643066754289530542507781033470601975837066194800729440962026277119960857450552233242584684750893605783003285657837757765740140998881733222646558189339565714152650862976678594782127928711788573781287505357017434093744216346655208532395488676590678843525062742621903355996650683240319870846956975907609029989855132512620997460613228232998516696589946653797599753138491788363659719258057971635030107272674656076278436028231835354884370849885066623190826873933218534571932787367592575506972240595354929174144248609498801643767631262830896008145874662791980329555429201884264679857786675986826112376743288015130093207542661760514742887550561904261870680841069389683761003520515785389423629881388051588900602250723324937775260236722099550434978741993317551029070231703638372599308529724102251801423162334969586640332709948636608462094370720309326707284028116392130125379673761751191227127070531709004649858275936205351808607696224813398485880330110023818000566188847817846953898888911145201918838768173948349309371242098278809416703797521457301539119785597151775958616642847341770817891598533542442798109645358268227782652602470659458649402460271388884554518946233898996096079830360779650186291

/-- The packed state after 624 twist-loop iterations from `mtStateSeed10`. -/
def mtStateTw624 : Nat :=
  86704208871557276923210473666412794631633396331395347493568327288470950489321761506257564800645714489792724846356132343796148507875782620725357552832193635643616267699977070515605780632913421258839006255811572384707088442214864905022256950624096576828687397168353840892960743341880663906126326157380430717372109054549675098942236650515227687942917116271137441651375494803286477738458002377859129141321068137969112103198707564181206843019270104324568783703124121080931550739650745391946031106292841131351275420726122045122301876738986381529934754613124288388296850267691765909963562102141248682232517645154546925441143216829621643161886138529520632314615411379717690528249172498814721793094554913472859774718647712986719756369809404857704414006377683718077884612932510279139924782845801095096974907092042488281956565104987050328751460204736173144230042170277302202751943277217142280036607015548462965747537281789824245378390158418036490434871141095725567160021014880463124102319410141436114491896047626826171876301040025229268431554646230721725586423337293912868059016801076939727516856365406687259464599191620800120475015373615744287483194771609701171899238213028691781496491412463510078801077777183465011553231718211313107213502262050567454094310653800517425184804110038831766332137683299122361511331455174550004777635480418282703680576795846656423026501076828141407591547138026575232073041970790593687030017761909646003611810927553675218921134586129411551177859851209592909507197329709014752140191178562831353848760331147502890139038828096311240684980945817007259198193522728137637653063554767446927061752426410929821392790495489878197223173739560476806593652908645253951194529752291035415233215167310364008925423892192913262669746296733995679933861272941311741237359863041144355875635227090000299318724260896510931281814168576269387644893395866512456264349791007887232872390378593960909366489688369604161727047742125272634290791560641842073314113076128773118981516136269952606872763375121414697255715649485099892651947953714230143936685382479608858634810652375779509780345473951259718161884315400089995579596199673093162191751360052661160148503459467435005647936717052973774771669764831391302598703346966954232824253954271639795664551002490075547504347730206380721660773457965009363640481149159514849223117762686397504278775805399086231865931433449374644710512201263297817860987163681480625960096089135921047834081433598223599247050954566078887173356454793942520664283935370859170075887931965944525055015161267521452138005799868934956185428844194911066248831736493355427360306570757745920524715297500375892998120084209848489919765224504778891931389300071013242819131893375622885104636412279735333575570345937573843300298493441492482887710575757011462233668580230790501495579144961555491040056458097005872876588154502879411699000223039668138391669631312940055000125726899411753881529505516847642244362989322230502335712041537453014177914106095210088698302808391520346660550990385479231326133493969514955636800137918925253991160484502140936202803822120809190246929973967856823608406661224137052475744823114804919466859574498897510190557877595026766725345336849627108974740039461442393744361906492949281602170280961448338351981049172361461186239425335597465907820447752072110832039960748904742116357588113284694560474604175583434181964921529485627166438989989784336680372356342743965422605043990418014366083891555857232395411902193821371218823071288998650683652198235110601054167439951829204547435942794778102173561642547355249075819849150968002476593699020090672031546469936108760080112432955633879141077329458200937994761098276381153663028963017872725297204350789934871114877571449234247259253584271004120344865331830600251833037434981487642745480793388216467153939913614270769858129210026567355169692476135089535291340803282218716635486423781353704899203418913546915516002345577514887435444205775250571219399989936656750895046612414661558427388024904941299745542195742524541358634388825046007880006538505276119894435791441020166817994644542964906868513345536052714417389509440893204499066393183068516215705918280833063028526436856761837656560871669119236407391228425978846554988680368818213811836252472203374333275734198099179851665546402894361905009060621537904249261399336158258439007983001258518092011998105850088491605941278954356359172458487993035000133240973935432568016655949776325801928189176657133885932700656906358526752313171873084611666799269019446557515483804029316474339705746991856499911903397402080200411253737071677710608341259730938936666699965695032687787659671686516779157174054799069015589933853735678570511717684934037293057730933526094126463398634243388828398120483631755065094270809935624815460462270397833334897286426062249236513960914900973474214969609742273743181574707383184043770470099853153991504661207106626695360241275022349805472441006582293266901284266838334900465703241593793534178987547226737639619228742036381678074563650032331715101593939288753323688792256123706315079246060252301414752529903138678897288935660102422735188032435666958134265309976878469140898573780382557997503353338719473854587886000079228230353089049592755939054611298794436573135702600105154872564605763186247584032977142387341075916313774403786747811546359597754765872116190506162429351411806510701166276578699620914511442630899608269319326046967521992079015384361057712550461616224016826396021961379373320257868917205585816504706125665135423580524625753949704407061851438544172167404827350581818922541252989291130128200647156566103553829371596154112509597154944677967561955805203616919956184694193832175074622669880944934394585851799661748252753030347764856363887671604145200206919081170376116324358446588336080655786608492685525419846098999244503082268274901992801153772836610949592328330536563600119541407515458084372993339252613095005935360929254128236519971009055439407246409724080675451287967673695793391368613540062145230827091340608652348840632934119781988016792269316374941620125354077404211

/-! ## Theorems -/

/-- C1: the claim says both inclusive-upper-bound shapes normalize the
end to the bound plus one.  `RangeInclusive` (`a..=b`) does
(`*self.end() + T::one()`), but `RangeToInclusive` (`..=b`) returns
`self.end` unchanged, so at the failing input `..=5` the normalized end
is 5, not 6: the value 5 can never be drawn from `..=5`, contradicting
Rust's inclusive-range semantics and the library's own handling of
`a..=b`. -/
theorem c1_rangeToInclusive_end_missing_increment :
    rangeToInclusive_end 5 = 5 ∧ rangeToInclusive_end 5 ≠ 5 + 1 ∧
    rangeInclusive_end 32 0 5 = 5 + 1 := by
  decide

/-- C2 counterexample: at the validly seeded register pair
`(1, 2^64 - 1)` and the normalized range `[0, 3)`, the value returned
by `XORShift128Plus::randrange` differs from the reduction of the exact
(untruncated) 128-bit mathematical sum `x + y`: the code adds in 64
bits (`u128::from(x + y)`), truncating the sum modulo `2^64` before
widening. -/
theorem c2_widened_sum_counterexample :
    xorshift128plus_new 1 (2 ^ 64 - 1) = .ok (1, 2 ^ 64 - 1) ∧
    (xorshift128plus_randrange (1, 2 ^ 64 - 1) 0 3).1 ≠
      (xorshift128plusStep 1 (2 ^ 64 - 1) + (2 ^ 64 - 1)) % (3 - 0) + 0 := by
  constructor
  · unfold xorshift128plus_new
    rw [if_neg (by decide)]
  · decide

/-- C2 (amended): one `XORShift128Plus::randrange` draw computes
`x ^= x<<23; x ^= x>>18; x ^= y ^ (y>>5)` on the first register value
`x` with the pre-update second register value `y`, stores the new `x`
into the second register slot, and the returned value is the 64-bit
wrapping sum `(x + y) mod 2^64` — not the exact 128-bit sum — widened,
reduced modulo the range width and offset by the range start. -/
theorem c2_draw_wrapping_sum (x y s e : Nat) :
    xorshift128plus_randrange (x, y) s e =
      (let x1 := x ^^^ u64 (x <<< 23)
       let x2 := x1 ^^^ (x1 >>> 18)
       let x3 := x2 ^^^ (y ^^^ (y >>> 5))
       (u64 (x3 + y) % (e - s) + s, (x, x3))) := by
  rfl

/-- C4: the three single-register XORShift constructors fail exactly on
the zero seed; the two-register XORShift128Plus constructor fails
exactly when both seed halves are zero; the Mersenne-Twister
constructor succeeds on every seed, zero included. -/
theorem c4_seed_rejection :
    (∀ s : Nat, (∃ m, xorshift32_new s = .error m) ↔ s = 0) ∧
    (∀ s : Nat, (∃ m, xorshift64_new s = .error m) ↔ s = 0) ∧
    (∀ s : Nat, (∃ m, xorshift128_new s = .error m) ↔ s = 0) ∧
    (∀ a b : Nat, (∃ m, xorshift128plus_new a b = .error m) ↔ (a = 0 ∧ b = 0)) ∧
    (∀ s : Nat, mersenneTwister_new s = .ok ⟨mtInit s, 625⟩) := by
  refine ⟨?_, ?_, ?_, ?_, fun s => rfl⟩
  · intro s
    unfold xorshift32_new
    split
    · rename_i h
      exact ⟨fun _ => h, fun _ => ⟨_, rfl⟩⟩
    · rename_i h
      constructor
      · rintro ⟨m, hm⟩
        cases hm
      · intro hs
        exact absurd hs h
  · intro s
    unfold xorshift64_new
    split
    · rename_i h
      exact ⟨fun _ => h, fun _ => ⟨_, rfl⟩⟩
    · rename_i h
      constructor
      · rintro ⟨m, hm⟩
        cases hm
      · intro hs
        exact absurd hs h
  · intro s
    unfold xorshift128_new
    split
    · rename_i h
      exact ⟨fun _ => h, fun _ => ⟨_, rfl⟩⟩
    · rename_i h
      constructor
      · rintro ⟨m, hm⟩
        cases hm
      · intro hs
        exact absurd hs h
  · intro a b
    have hor : a ||| b = 0 ↔ a = 0 ∧ b = 0 := by
      constructor
      · intro h
        constructor
        · apply Nat.eq_of_testBit_eq
          intro i
          have hb := congrArg (fun n => Nat.testBit n i) h
          simp only [Nat.testBit_lor, Nat.zero_testBit, Bool.or_eq_false_iff] at hb
          simp [hb.1]
        · apply Nat.eq_of_testBit_eq
          intro i
          have hb := congrArg (fun n => Nat.testBit n i) h
          simp only [Nat.testBit_lor, Nat.zero_testBit, Bool.or_eq_false_iff] at hb
          simp [hb.2]
      · rintro ⟨rfl, rfl⟩
        rfl
    unfold xorshift128plus_new
    split
    · rename_i h
      exact ⟨fun _ => hor.mp h, fun _ => ⟨_, rfl⟩⟩
    · rename_i h
      constructor
      · rintro ⟨m, hm⟩
        cases hm
      · intro hab
        exact absurd (hor.mpr hab) h

/-- C8: `XORShift128Plus::randrange` writes only the second register
slot: the first register survives every single draw unchanged, the new
second register is the shift-xor step of the pair, the returned value
mixes that first register (through the step) with the pre-update second
register, and over any sequence of draws the first register permanently
equals the first half of the seed. -/
theorem c8_first_register_constant :
    (∀ (st : Nat × Nat) (s e : Nat),
      (xorshift128plus_randrange st s e).2.1 = st.1 ∧
      (xorshift128plus_randrange st s e).2.2 = xorshift128plusStep st.1 st.2 ∧
      (xorshift128plus_randrange st s e).1 =
        u64 (xorshift128plusStep st.1 st.2 + st.2) % (e - s) + s) ∧
    (∀ (st : Nat × Nat) (rs : List (Nat × Nat)),
      (xorshift128plusIter st rs).1 = st.1) := by
  constructor
  · exact fun st s e => ⟨rfl, rfl, rfl⟩
  · intro st rs
    induction rs generalizing st with
    | nil => rfl
    | cons r rs ih =>
      obtain ⟨s, e⟩ := r
      simpa [xorshift128plusIter] using ih (xorshift128plus_randrange st s e).2

/-- C3: with seed 10 (seed pair `[10, 20]` for XORShift128Plus), the
first draw over the range `1..5` (normalized `[1, 5)`) returns 3, for
the Mersenne Twister and all four XORShift variants. -/
theorem c3_reference_vectors :
    mersenneTwister_new 10 = .ok ⟨mtInit 10, 625⟩ ∧
    (mersenneTwister_randrange ⟨mtInit 10, 625⟩ 1 5).1 = 3 ∧
    xorshift32_new 10 = .ok 10 ∧ (xorshift32_randrange 10 1 5).1 = 3 ∧
    xorshift64_new 10 = .ok 10 ∧ (xorshift64_randrange 10 1 5).1 = 3 ∧
    xorshift128_new 10 = .ok 10 ∧ (xorshift128_randrange 10 1 5).1 = 3 ∧
    xorshift128plus_new 10 20 = .ok (10, 20) ∧
    (xorshift128plus_randrange (10, 20) 1 5).1 = 3 := by
  refine ⟨rfl, ?_, rfl, by decide, rfl, by decide, rfl, by decide, rfl, by decide⟩
  have h0 : mtInit 10 = mtStateSeed10 := by decide
  have h1 : List.foldl mtTwistStep mtStateSeed10 (List.range' 0 78) = mtStateTw78 := by decide
  have h2 : List.foldl mtTwistStep mtStateTw78 (List.range' 78 78) = mtStateTw156 := by decide
  have h3 : List.foldl mtTwistStep mtStateTw156 (List.range' 156 78) = mtStateTw234 := by decide
  have h4 : List.foldl mtTwistStep mtStateTw234 (List.range' 234 78) = mtStateTw312 := by decide
  have h5 : List.foldl mtTwistStep mtStateTw312 (List.range' 312 78) = mtStateTw390 := by decide
  have h6 : List.foldl mtTwistStep mtStateTw390 (List.range' 390 78) = mtStateTw468 := by decide
  have h7 : List.foldl mtTwistStep mtStateTw468 (List.range' 468 78) = mtStateTw546 := by decide
  have h8 : List.foldl mtTwistStep mtStateTw546 (List.range' 546 78) = mtStateTw624 := by decide
  have hsplit : List.range 624 =
      List.range' 0 78 ++ (List.range' 78 78 ++ (List.range' 156 78 ++ (List.range' 234 78 ++
      (List.range' 312 78 ++ (List.range' 390 78 ++ (List.range' 468 78 ++
      List.range' 546 78)))))) := by decide
  have htw : mtTwist mtStateSeed10 = mtStateTw624 := by
    rw [mtTwist, hsplit]
    simp only [List.foldl_append]
    rw [h1, h2, h3, h4, h5, h6, h7, h8]
  have hgen : ∀ st : Nat, (mersenneTwister_randrange ⟨st, 625⟩ 1 5).1 =
      (mtTemper (mtGet (mtTwist st) 0) &&& 0xFFFFFFFF) % (5 - 1) + 1 := fun st => rfl
  rw [hgen (mtInit 10), h0, htw]
  decide

/-- Invariant of the rejection-sampling loop: starting from a
duplicate-free list of in-bounds positions no longer than `amount`,
with `amount ≤ length`, a normal return carries `amount` duplicate-free
in-bounds positions. -/
lemma sampleLoop_sound (A : GenAlg σ) (length amount : Nat)
    (ham : amount ≤ length) :
    ∀ (fuel : Nat) (st : σ) (positions ps : List Nat) (st' : σ),
      positions.Nodup → (∀ p ∈ positions, p < length) →
      positions.length ≤ amount →
      sampleLoop A length amount fuel st positions = some (ps, st') →
      ps.Nodup ∧ ps.length = amount ∧ ∀ p ∈ ps, p < length := by
  intro fuel
  induction fuel with
  | zero =>
    intro st positions ps st' hnd hbd hlen hrun
    rw [sampleLoop] at hrun
    split at hrun
    · cases hrun
    · rename_i hstop
      injection hrun with hrun
      injection hrun with h1 h2
      subst h1
      exact ⟨hnd, by omega, hbd⟩
  | succ fuel ih =>
    intro st positions ps st' hnd hbd hlen hrun
    rw [sampleLoop] at hrun
    split at hrun
    · rename_i hgo
      have hposlt : (algRandrange A st 0 length).1 < length := by
        have h0 : 0 < length := by omega
        simp only [algRandrange, Nat.sub_zero, Nat.add_zero]
        exact Nat.mod_lt _ h0
      split at hrun
      · exact ih _ _ _ _ hnd hbd hlen hrun
      · rename_i hnew
        refine ih _ _ _ _ ?_ ?_ ?_ hrun
        · simp [List.nodup_append, hnd, hnew]
        · intro p hp
          rcases List.mem_append.mp hp with h | h
          · exact hbd p h
          · simp at h
            omega
        · simp
          omega
    · rename_i hstop
      injection hrun with hrun
      injection hrun with h1 h2
      subst h1
      exact ⟨hnd, by omega, hbd⟩

/-- When every position is in bounds, looking the positions up in the
vector produces exactly one element per position. -/
lemma length_filterMap_get (v : List α) :
    ∀ ps : List Nat, (∀ p ∈ ps, p < v.length) →
      (ps.filterMap v.get?).length = ps.length := by
  intro ps
  induction ps with
  | nil => intro _; rfl
  | cons p ps ih =>
    intro hbd
    have hp : p < v.length := hbd p (by simp)
    obtain ⟨a, ha⟩ : ∃ a, v.get? p = some a := by
      rw [List.get?_eq_get hp]
      exact ⟨_, rfl⟩
    simp only [List.filterMap_cons, ha, List.length_cons]
    rw [ih fun q hq => hbd q (by simp [hq])]

/-- C5: `sample` fails with the amount-exceeds-population error exactly
when `amount > vector.len()`; and whenever it returns normally it
returns `Ok` with the elements at exactly `amount` pairwise-distinct
in-bounds positions, chosen by rejection sampling on repeated draws of
indices in `[0, length)`. -/
theorem c5_sample_spec (A : GenAlg σ) (st : σ) (v : List α) (amount fuel : Nat) :
    ((sample A st v amount fuel).1 =
        .error "can't get a sample bigger than the population" ↔
      amount > v.length) ∧
    (∀ sel, (sample A st v amount fuel).1 = .ok (some sel) →
      ∃ ps : List Nat, ps.Nodup ∧ ps.length = amount ∧
        (∀ p ∈ ps, p < v.length) ∧ sel = ps.filterMap v.get? ∧
        sel.length = amount) := by
  unfold sample
  split
  · rename_i hgt
    refine ⟨⟨fun _ => hgt, fun _ => rfl⟩, ?_⟩
    intro sel hsel
    cases hsel
  · rename_i hle
    have hle' : amount ≤ v.length := by omega
    constructor
    · constructor
      · intro h
        split at h <;> cases h
      · intro h
        exact absurd h hle
    · intro sel hsel
      split at hsel
      · cases hsel
      · rename_i ps st₂ hrun
        injection hsel with hsel
        injection hsel with hsel
        have hps := sampleLoop_sound A v.length amount hle' fuel st [] ps st₂
          List.nodup_nil (by simp) (by simp) hrun
        refine ⟨ps, hps.1, hps.2.1, hps.2.2, hsel.symm, ?_⟩
        rw [hsel.symm] at *
        rw [← hps.2.1]
        exact length_filterMap_get v ps hps.2.2

/-- C5 witness: on the vector `[10, 20, 30]` with `amount = 2` the demo
generator draws positions 0 and 1 and `sample` returns their two
elements. -/
theorem c5_sample_spec_witness :
    ∃ ps : List Nat, ps.Nodup ∧ ps.length = 2 ∧
      (∀ p ∈ ps, p < ([10, 20, 30] : List Nat).length) ∧
      ([10, 20] : List Nat) = ps.filterMap ([10, 20, 30] : List Nat).get? ∧
      ([10, 20] : List Nat).length = 2 :=
  (c5_sample_spec demoAlg 0 [10, 20, 30] 2 10).2 [10, 20] rfl

/-- C9: the `amount > length` check precedes every draw, so a failing
`sample` call leaves the generator state untouched; and `amount = 0`
(also on the empty vector) returns `Ok` with the empty selection
without advancing the generator. -/
theorem c9_sample_error_atomicity (A : GenAlg σ) (st : σ) (v : List α)
    (amount fuel : Nat) :
    (amount > v.length →
      sample A st v amount fuel =
        (.error "can't get a sample bigger than the population", st)) ∧
    sample A st v 0 fuel = (.ok (some []), st) := by
  constructor
  · intro hgt
    unfold sample
    rw [if_pos hgt]
  · unfold sample
    rw [if_neg (by omega)]
    have hloop : sampleLoop A v.length 0 fuel st [] = some ([], st) := by
      cases fuel <;> (rw [sampleLoop]; simp)
    rw [hloop]
    rfl

/-- C9 witness: on the singleton vector `[5]`, requesting 2 elements
fails and returns the untouched state 0; requesting 0 elements returns
the empty selection with the untouched state 0. -/
theorem c9_sample_error_atomicity_witness :
    (2 > ([5] : List Nat).length) ∧
    sample demoAlg 0 ([5] : List Nat) 2 10 =
      (.error "can't get a sample bigger than the population", 0) ∧
    sample demoAlg 0 ([5] : List Nat) 0 10 = (.ok (some []), 0) :=
  ⟨by decide, (c9_sample_error_atomicity demoAlg 0 [5] 2 10).1 (by decide),
    (c9_sample_error_atomicity demoAlg 0 [5] 0 10).2⟩

/-- Moving the element at position `m` to the front while writing `a`
into position `m` permutes a cons cell onto the front. -/
lemma set_cons_perm (a : α) :
    ∀ (t : List α) (m : Nat) (h : m < t.length),
      List.Perm (t.get ⟨m, h⟩ :: t.set m a) (a :: t) := by
  intro t
  induction t with
  | nil =>
    intro m h
    simp at h
  | cons b t ih =>
    intro m h
    cases m with
    | zero => exact List.Perm.swap a b t
    | succ m =>
      have hm : m < t.length := by simpa using h
      show List.Perm (t.get ⟨m, hm⟩ :: b :: t.set m a) (a :: b :: t)
      exact ((List.Perm.swap b (t.get ⟨m, hm⟩) (t.set m a)).trans
        ((ih m hm).cons b)).trans (List.Perm.swap a b t)

/-- Exchanging the entries at two distinct in-bounds positions with two
`set` writes permutes the list. -/
lemma swap_set_perm :
    ∀ (v : List α) (i j : Nat) (hi : i < v.length) (hj : j < v.length),
      i < j →
      List.Perm ((v.set i (v.get ⟨j, hj⟩)).set j (v.get ⟨i, hi⟩)) v := by
  intro v
  induction v with
  | nil =>
    intro i j hi
    simp at hi
  | cons a t ih =>
    intro i j hi hj hij
    cases i with
    | zero =>
      cases j with
      | zero => exact absurd hij (by omega)
      | succ m =>
        have hm : m < t.length := by simpa using hj
        show List.Perm (t.get ⟨m, hm⟩ :: t.set m a) (a :: t)
        exact set_cons_perm a t m hm
    | succ i' =>
      cases j with
      | zero => exact absurd hij (by omega)
      | succ j' =>
        have hi' : i' < t.length := by simpa using hi
        have hj' : j' < t.length := by simpa using hj
        show List.Perm
          (a :: (t.set i' (t.get ⟨j', hj'⟩)).set j' (t.get ⟨i', hi'⟩)) (a :: t)
        exact (ih i' j' hi' hj' (by omega)).cons a

/-- A successful `Vec::swap` with `i < j` permutes the vector and keeps
its length. -/
lemma shuffleSwap_perm (v : List α) (i j : Nat) (hij : i < j) (v' : List α)
    (hsw : shuffleSwap v i j = some v') :
    List.Perm v' v ∧ v'.length = v.length := by
  unfold shuffleSwap at hsw
  split at hsw
  · rename_i h
    injection hsw with hsw
    subst hsw
    exact ⟨swap_set_perm v i j h.1 h.2 hij, by simp⟩
  · cases hsw

/-- A normal return of the Fisher–Yates loop is a permutation of its
input vector. -/
lemma shuffleLoop_perm (A : GenAlg σ) :
    ∀ (items : Nat) (st : σ) (v r : List α) (st' : σ),
      shuffleLoop A items st v = some (r, st') → List.Perm r v := by
  intro items
  induction items with
  | zero =>
    intro st v r st' h
    rw [shuffleLoop] at h
    injection h with h
    injection h with h1 h2
    subst h1
    exact List.Perm.refl _
  | succ i ih =>
    intro st v r st' h
    rw [shuffleLoop] at h
    split at h
    · exact ih _ _ _ _ h
    · rename_i hne
      cases hsw : shuffleSwap v (algRandrange A st 0 (i + 1 + 1)).1 (i + 1) with
      | none =>
        rw [hsw] at h
        cases h
      | some v' =>
        rw [hsw] at h
        have hlt : (algRandrange A st 0 (i + 1 + 1)).1 < i + 1 := by
          have hb : (algRandrange A st 0 (i + 1 + 1)).1 < i + 2 := by
            simp only [algRandrange, Nat.sub_zero, Nat.add_zero]
            exact Nat.mod_lt _ (by omega)
          omega
        exact (ih _ _ _ _ h).trans (shuffleSwap_perm v _ _ hlt v' hsw).1

/-- The Fisher–Yates loop returns normally whenever the movable
boundary is strictly below the vector length: every drawn position and
the boundary itself are then in bounds for each swap. -/
lemma shuffleLoop_isSome (A : GenAlg σ) :
    ∀ (items : Nat) (st : σ) (v : List α), items < v.length →
      (shuffleLoop A items st v).isSome = true := by
  intro items
  induction items with
  | zero =>
    intro st v h
    rw [shuffleLoop]
    rfl
  | succ i ih =>
    intro st v h
    rw [shuffleLoop]
    split
    · exact ih _ _ (by omega)
    · rename_i hne
      have hposlt : (algRandrange A st 0 (i + 1 + 1)).1 < v.length := by
        have hb : (algRandrange A st 0 (i + 1 + 1)).1 < i + 2 := by
          simp only [algRandrange, Nat.sub_zero, Nat.add_zero]
          exact Nat.mod_lt _ (by omega)
        omega
      obtain ⟨v', hv', hlen⟩ :
          ∃ v', shuffleSwap v (algRandrange A st 0 (i + 1 + 1)).1 (i + 1) = some v' ∧
            v'.length = v.length := by
        unfold shuffleSwap
        rw [dif_pos ⟨hposlt, h⟩]
        exact ⟨_, rfl, by simp⟩
      rw [hv']
      exact ih _ _ (by omega)

/-- C6: `shuffle` iterates the movable boundary from `len - 1` down
to 1, drawing `pos` in `[0, i]` and swapping positions `pos` and `i`
when they differ; consequently every invocation that returns produces a
vector holding the same multiset of elements — a permutation — of the
original. -/
theorem c6_shuffle_permutation (A : GenAlg σ) (st : σ) (v r : List α) (st' : σ)
    (h : shuffle A st v = some (r, st')) : List.Perm r v := by
  unfold shuffle at h
  split at h
  · cases h
  · rename_i n hn
    exact shuffleLoop_perm A n st v r st' h

/-- C6 witness: the demo generator shuffles `[1, 2, 3]` into
`[3, 2, 1]`, a permutation of the original. -/
theorem c6_shuffle_permutation_witness :
    List.Perm ([3, 2, 1] : List Nat) [1, 2, 3] :=
  c6_shuffle_permutation demoAlg 0 [1, 2, 3] [3, 2, 1] 2 rfl

/-- C10: `shuffle` on the empty vector never returns normally — the
boundary initialization `vector.len() - 1` underflows on the unsigned
zero length (modeled `none`) — while on every vector of length at least
one the boundary subtraction and all subsequent index accesses stay in
bounds and `shuffle` returns normally. -/
theorem c10_shuffle_empty_underflow (A : GenAlg σ) (st : σ) (v : List α) :
    shuffle A st v = none ↔ v = [] := by
  constructor
  · intro h
    cases v with
    | nil => rfl
    | cons a t =>
      exfalso
      have hred : shuffle A st (a :: t) = shuffleLoop A t.length st (a :: t) := rfl
      rw [hred] at h
      have hs := shuffleLoop_isSome A t.length st (a :: t) (by simp)
      rw [h] at hs
      simp at hs
  · rintro rfl
    rfl

/-- C7: every `Random::random` draw — the `n`-th consecutive draw from
any generator and any starting state, over the full `w`-bit domain
`[0, max)` followed by division by `max` (modeled as exact rational
division; only floating-point rounding could ever produce exactly 1.0,
which exact division shows is not the designed value) — lies in the
half-open unit interval `[0, 1)`. -/
theorem c7_random_unit_interval (A : GenAlg σ) (w : Nat) (st : σ) (n : Nat) :
    0 ≤ (random A w (nthState A st n)).1 ∧ (random A w (nthState A st n)).1 < 1 := by
  unfold random algRandrange
  simp only [Nat.sub_zero, Nat.add_zero]
  constructor
  · exact div_nonneg (Nat.cast_nonneg _) (Nat.cast_nonneg _)
  · rcases Nat.eq_zero_or_pos (2 ^ w - 1) with h0 | hpos
    · rw [h0]
      simp
    · have hc : (0 : ℚ) < ((2 ^ w - 1 : Nat) : ℚ) := by
        exact_mod_cast hpos
      rw [div_lt_one hc]
      exact_mod_cast Nat.mod_lt _ hpos

end Rnglib
